import Mathlib

/-!
Verification development for the AI-Research-Agent / Semantic-Graph integration
layer (`src/semantic_graph/ai_research_agent_integration.py`).

The Python class `AIResearchAgentIntegration` is shallowly embedded as a pure
state machine.  Mutable state (`integration_stats`, `integration_hooks`) is an
explicit `IntegrationState` threaded through every operation; in addition the
state carries a chronological trace of the calls made to the external
`SemanticGraphAgent` collaborator, so that "the normalizer forwarded record R
at priority p" is an observable fact.  Python exceptions are modelled by
`Except Exn` where `Exn` records the exception class name and its message
(`str(e)`); a raising collaborator method is a method returning `.error e`.
Python dict payloads with optional keys become structures of `Option` fields;
`d.get(k, default)` becomes `(field).getD default`.  Numeric payload values are
modelled as `Rat`; wall-clock timestamps (`datetime.now().isoformat()`) are an
explicit `now : String` parameter, and the elapsed-time measurement in the tool
wrapper is an explicit `elapsed : Rat` parameter.
-/

namespace SemGraphIntegration

/-- A Python exception, modelled by its class name and its message (`str(e)`). -/
structure Exn where
  ty : String
  msg : String
deriving DecidableEq, Repr

/-- `IngestionSource` enum from `graph_ingestion`, the members used here. -/
inductive IngestionSource where
  | MEMORY
  | TOOL_USAGE
  | RESEARCH_FINDINGS
  | RETRIEVAL_LOGS
  | PLANNER_OUTPUTS
deriving DecidableEq, Repr

/-- The `ingestion_data` dict built by `_handle_memory_output` (lines 76-89):
`concepts`/`citations` keys are present only when present in the input. -/
structure MemoryIngest where
  content : String
  importance : Rat
  memory_type : String
  session_id : String
  timestamp : String
  source : String
  concepts : Option (List String)
  citations : Option (List String)
deriving DecidableEq, Repr

/-- The `usage_data` dict built by `_handle_tool_usage` (lines 120-128). -/
structure ToolUsageIngest where
  tool_name : String
  input : String
  output : String
  execution_time : Rat
  success : Bool
  timestamp : String
  usage_context : String
deriving DecidableEq, Repr

/-- The `step_info` sub-dict of a finding payload. -/
structure StepInfo where
  step_number : Option Nat := none
  step_description : Option String := none
deriving DecidableEq, Repr

/-- The `research_data` dict built by `_handle_finding` (lines 159-167). -/
structure ResearchIngest where
  finding : String
  analysis : String
  confidence : Rat
  sources : List String
  step_info : StepInfo
  research_step : Nat
  timestamp : String
deriving DecidableEq, Repr

/-- The `retrieval_log` dict built by `_handle_retrieval` (lines 207-212). -/
structure RetrievalLog where
  query : String
  strategy : String
  results_count : Nat
  timestamp : String
deriving DecidableEq, Repr

/-- The `planning_log` dict built by `_handle_planning` (lines 249-255). -/
structure PlanningLog where
  research_question : String
  strategy : String
  plan_steps : Nat
  graph_connectivity : List (String × String)
  timestamp : String
deriving DecidableEq, Repr

/-- Payload of an `ingest_event` forwarding call, one shape per call site. -/
inductive IngestData where
  | memory : MemoryIngest → IngestData
  | toolUsage : ToolUsageIngest → IngestData
  | research : ResearchIngest → IngestData
  | retrievalLog : RetrievalLog → IngestData
  | planningLog : PlanningLog → IngestData
deriving DecidableEq, Repr

/-- Argument record of `semantic_graph.enhanced_retrieval` (lines 198-204). -/
structure RetrievalArgs where
  query : String
  query_embedding : Option (List Rat)
  strategy : String
  top_k : Nat
  node_types : Option (List String)
deriving DecidableEq, Repr

/-- The dict returned by `enhanced_retrieval`: the handler only inspects
`results.get('results', [])`; `extra` stands for every other key, so that
"returned unchanged" is a nontrivial statement. -/
structure RetrievalResult where
  results : Option (List String)
  extra : String
deriving DecidableEq, Repr

/-- Argument record of `semantic_graph.enhanced_planning` (lines 241-246). -/
structure PlanningArgs where
  research_question : String
  context : List (String × String)
  strategy : String
  max_steps : Nat
deriving DecidableEq, Repr

/-- The dict returned by `enhanced_planning`: the handler only inspects
`plan.get('plan_steps', [])` and `plan.get('graph_connectivity', {})`;
`extra` stands for every other key. -/
structure PlanResult where
  plan_steps : Option (List String)
  graph_connectivity : Option (List (String × String))
  extra : String
deriving DecidableEq, Repr

/-- Argument record of `semantic_graph.record_user_feedback` (lines 286-293). -/
structure FeedbackArgs where
  user_id : String
  preferred_content : String
  rejected_content : String
  feedback_type : String
  confidence : Rat
  context : String
deriving DecidableEq, Repr

/-- Argument record of `semantic_graph.record_context_event`
(lines 332-336 and 452-456). -/
structure ContextEventArgs where
  context_type : String
  content : String
  relevance : Rat
deriving DecidableEq, Repr

/-- One call made to the external `SemanticGraphAgent` collaborator, as
recorded in the chronological trace. -/
inductive ClientCall where
  | ingestEvent : IngestionSource → IngestData → Nat → ClientCall
  | enhancedRetrieval : RetrievalArgs → ClientCall
  | enhancedPlanning : PlanningArgs → ClientCall
  | recordUserFeedback : FeedbackArgs → ClientCall
  | recordOperationTime : String → Rat → ClientCall
  | recordError : String → ClientCall
  | recordContextEvent : ContextEventArgs → ClientCall
deriving DecidableEq, Repr

/-- The external collaborator (`self.semantic_graph`), modelled as a
deterministic oracle: each method maps its arguments to a normal return
(`.ok`) or a raised exception (`.error`). -/
structure SemanticGraphAgent where
  ingest_event : IngestionSource → IngestData → Nat → Except Exn Unit
  enhanced_retrieval : RetrievalArgs → Except Exn RetrievalResult
  enhanced_planning : PlanningArgs → Except Exn PlanResult
  record_user_feedback : FeedbackArgs → Except Exn String
  record_operation_time : String → Rat → Except Exn Unit
  record_error : String → Except Exn Unit
  record_context_event : ContextEventArgs → Except Exn Unit
  get_comprehensive_stats : String
  get_monitoring_dashboard_data : String

/-- The `integration_stats` dict (lines 23-31). -/
structure IntegrationStats where
  memory_writes : Nat := 0
  tool_usage_logs : Nat := 0
  findings_captured : Nat := 0
  retrieval_calls : Nat := 0
  plan_generations : Nat := 0
  preference_logs : Nat := 0
  monitoring_events : Nat := 0
deriving DecidableEq, Repr

/-- Value stored in the `integration_hooks` registry: which bound normalizer
method the key maps to. -/
inductive HookKind where
  | memoryWrites
  | toolUsageLogs
  | findingsCapture
  | retrievalCalls
  | planGeneration
  | preferenceLogging
  | monitoring
deriving DecidableEq, Repr

/-- Mutable state of one `AIResearchAgentIntegration` instance, plus the
trace of collaborator calls made so far (oldest first). -/
structure IntegrationState where
  integration_hooks : List (String × HookKind)
  stats : IntegrationStats
  calls : List ClientCall
deriving DecidableEq, Repr

/-- `_register_integration_hooks` (lines 38-60): seven insertions of distinct
keys into a fresh dict, in program order. -/
def _register_integration_hooks : List (String × HookKind) :=
  [("memory_writes", HookKind.memoryWrites),
   ("tool_usage_logs", HookKind.toolUsageLogs),
   ("findings_capture", HookKind.findingsCapture),
   ("retrieval_calls", HookKind.retrievalCalls),
   ("plan_generation", HookKind.planGeneration),
   ("preference_logging", HookKind.preferenceLogging),
   ("monitoring", HookKind.monitoring)]

/-- State of a freshly constructed instance (`__init__`, lines 20-34). -/
def initialState : IntegrationState :=
  { integration_hooks := _register_integration_hooks
    stats := {}
    calls := [] }

/-- Record one collaborator call in the trace. -/
def IntegrationState.logCall (st : IntegrationState) (c : ClientCall) :
    IntegrationState :=
  { st with calls := st.calls ++ [c] }

/-! ## Payload types (the loosely-shaped input dicts of the normalizers) -/

/-- Input dict of `_handle_memory_output`. -/
structure MemoryData where
  content : Option String := none
  importance : Option Rat := none
  memory_type : Option String := none
  session_id : Option String := none
  concepts : Option (List String) := none
  citations : Option (List String) := none
deriving DecidableEq, Repr

/-- Input dict of `_handle_tool_usage`; the `error` key set by
`enhanced_invoke` is carried but never read by the handler. -/
structure ToolData where
  tool_name : Option String := none
  tool_input : Option String := none
  tool_output : Option String := none
  execution_time : Option Rat := none
  success : Option Bool := none
  context : Option String := none
  error : Option String := none
deriving DecidableEq, Repr

/-- Input dict of `_handle_finding`. -/
structure FindingData where
  finding : Option String := none
  step_info : Option StepInfo := none
  confidence : Option Rat := none
  sources : Option (List String) := none
  analysis : Option String := none
deriving DecidableEq, Repr

/-- Input dict of `_handle_retrieval`. -/
structure RetrievalData where
  query : Option String := none
  query_embedding : Option (List Rat) := none
  strategy : Option String := none
  top_k : Option Nat := none
  node_types : Option (List String) := none
deriving DecidableEq, Repr

/-- Input dict of `_handle_planning`. -/
structure PlanningData where
  research_question : Option String := none
  context : Option (List (String × String)) := none
  strategy : Option String := none
  max_steps : Option Nat := none
deriving DecidableEq, Repr

/-- Input dict of `_handle_preference`. -/
structure PreferenceData where
  user_id : Option String := none
  preferred_content : Option String := none
  rejected_content : Option String := none
  feedback_type : Option String := none
  confidence : Option Rat := none
  context : Option String := none
deriving DecidableEq, Repr

/-- Input dict of `_handle_monitoring`. -/
structure MonitoringData where
  step_name : Option String := none
  execution_time : Option Rat := none
  success : Option Bool := none
  metrics : Option (List (String × String)) := none
  error_type : Option String := none
deriving DecidableEq, Repr

/-- Result value of `_handle_retrieval` / `_handle_planning`: either the
collaborator's dict passed through unchanged, or the error shape
`\x7b'error': str(e), 'results'/'plan_steps': []\x7d`. -/
inductive DictReturn (α : Type) where
  | passthrough : α → DictReturn α
  | errorShape : String → DictReturn α
deriving DecidableEq, Repr

/-- Two-decimal fixed-point rendering of a nonnegative rational, modelling
CPython's format of `execution_time` in the monitoring context-event string
(the payload values exercised here are exact at two decimals, where the
formats agree). -/
def fmt2 (r : Rat) : String :=
  let n : Int := (r * 100).floor
  let frac : Nat := (n % 100).toNat
  toString (n / 100) ++ "." ++
    (if frac < 10 then "0" ++ toString frac else toString frac)

/-! ## The seven normalizers -/

/-- `_handle_memory_output` (lines 63-104). -/
def _handle_memory_output (sg : SemanticGraphAgent) (now : String)
    (d : MemoryData) (st : IntegrationState) : IntegrationState × String :=
  let content := d.content.getD ""
  let importance := d.importance.getD (1/2)
  let memory_type := d.memory_type.getD "general"
  let session_id := d.session_id.getD "default"
  let ingestion_data : MemoryIngest :=
    { content := content
      importance := importance
      memory_type := memory_type
      session_id := session_id
      timestamp := now
      source := "memory_manager"
      concepts := d.concepts
      citations := d.citations }
  let st1 := st.logCall
    (ClientCall.ingestEvent IngestionSource.MEMORY
      (IngestData.memory ingestion_data) 2)
  match sg.ingest_event IngestionSource.MEMORY
      (IngestData.memory ingestion_data) 2 with
  | Except.ok _ =>
      ({ st1 with stats :=
          { st1.stats with memory_writes := st1.stats.memory_writes + 1 } },
       "Memory content ingested into semantic graph: " ++
         toString content.length ++ " chars")
  | Except.error e =>
      (st1, "Memory integration error: " ++ e.msg)

/-- `_handle_tool_usage` (lines 107-143). -/
def _handle_tool_usage (sg : SemanticGraphAgent) (now : String)
    (d : ToolData) (st : IntegrationState) : IntegrationState × String :=
  let tool_name := d.tool_name.getD ""
  let usage_data : ToolUsageIngest :=
    { tool_name := tool_name
      input := d.tool_input.getD ""
      output := d.tool_output.getD ""
      execution_time := d.execution_time.getD 0
      success := d.success.getD true
      timestamp := now
      usage_context := d.context.getD "research" }
  let st1 := st.logCall
    (ClientCall.ingestEvent IngestionSource.TOOL_USAGE
      (IngestData.toolUsage usage_data) 1)
  match sg.ingest_event IngestionSource.TOOL_USAGE
      (IngestData.toolUsage usage_data) 1 with
  | Except.ok _ =>
      ({ st1 with stats :=
          { st1.stats with tool_usage_logs := st1.stats.tool_usage_logs + 1 } },
       "Tool usage logged: " ++ tool_name ++ " -> semantic graph")
  | Except.error e =>
      (st1, "Tool usage integration error: " ++ e.msg)

/-- `_handle_finding` (lines 146-182). -/
def _handle_finding (sg : SemanticGraphAgent) (now : String)
    (d : FindingData) (st : IntegrationState) : IntegrationState × String :=
  let finding_content := d.finding.getD ""
  let step_info := d.step_info.getD {}
  let research_data : ResearchIngest :=
    { finding := finding_content
      analysis := d.analysis.getD ""
      confidence := d.confidence.getD (1/2)
      sources := d.sources.getD []
      step_info := step_info
      research_step := step_info.step_number.getD 0
      timestamp := now }
  let st1 := st.logCall
    (ClientCall.ingestEvent IngestionSource.RESEARCH_FINDINGS
      (IngestData.research research_data) 2)
  match sg.ingest_event IngestionSource.RESEARCH_FINDINGS
      (IngestData.research research_data) 2 with
  | Except.ok _ =>
      ({ st1 with stats :=
          { st1.stats with
              findings_captured := st1.stats.findings_captured + 1 } },
       "Research finding captured: " ++
         toString finding_content.length ++ " chars")
  | Except.error e =>
      (st1, "Finding capture error: " ++ e.msg)

/-- `_handle_retrieval` (lines 185-226). -/
def _handle_retrieval (sg : SemanticGraphAgent) (now : String)
    (d : RetrievalData) (st : IntegrationState) :
    IntegrationState × DictReturn RetrievalResult :=
  let args : RetrievalArgs :=
    { query := d.query.getD ""
      query_embedding := d.query_embedding
      strategy := d.strategy.getD "hybrid"
      top_k := d.top_k.getD 10
      node_types := d.node_types }
  let st1 := st.logCall (ClientCall.enhancedRetrieval args)
  match sg.enhanced_retrieval args with
  | Except.error e => (st1, DictReturn.errorShape e.msg)
  | Except.ok results =>
      let retrieval_log : RetrievalLog :=
        { query := args.query
          strategy := args.strategy
          results_count := (results.results.getD []).length
          timestamp := now }
      let st2 := st1.logCall
        (ClientCall.ingestEvent IngestionSource.RETRIEVAL_LOGS
          (IngestData.retrievalLog retrieval_log) 1)
      match sg.ingest_event IngestionSource.RETRIEVAL_LOGS
          (IngestData.retrievalLog retrieval_log) 1 with
      | Except.error e => (st2, DictReturn.errorShape e.msg)
      | Except.ok _ =>
          ({ st2 with stats :=
              { st2.stats with
                  retrieval_calls := st2.stats.retrieval_calls + 1 } },
           DictReturn.passthrough results)

/-- `_handle_planning` (lines 229-269). -/
def _handle_planning (sg : SemanticGraphAgent) (now : String)
    (d : PlanningData) (st : IntegrationState) :
    IntegrationState × DictReturn PlanResult :=
  let args : PlanningArgs :=
    { research_question := d.research_question.getD ""
      context := d.context.getD []
      strategy := d.strategy.getD "hybrid"
      max_steps := d.max_steps.getD 8 }
  let st1 := st.logCall (ClientCall.enhancedPlanning args)
  match sg.enhanced_planning args with
  | Except.error e => (st1, DictReturn.errorShape e.msg)
  | Except.ok plan =>
      let planning_log : PlanningLog :=
        { research_question := args.research_question
          strategy := args.strategy
          plan_steps := (plan.plan_steps.getD []).length
          graph_connectivity := plan.graph_connectivity.getD []
          timestamp := now }
      let st2 := st1.logCall
        (ClientCall.ingestEvent IngestionSource.PLANNER_OUTPUTS
          (IngestData.planningLog planning_log) 2)
      match sg.ingest_event IngestionSource.PLANNER_OUTPUTS
          (IngestData.planningLog planning_log) 2 with
      | Except.error e => (st2, DictReturn.errorShape e.msg)
      | Except.ok _ =>
          ({ st2 with stats :=
              { st2.stats with
                  plan_generations := st2.stats.plan_generations + 1 } },
           DictReturn.passthrough plan)

/-- `_handle_preference` (lines 272-301). -/
def _handle_preference (sg : SemanticGraphAgent) (_now : String)
    (d : PreferenceData) (st : IntegrationState) : IntegrationState × String :=
  let args : FeedbackArgs :=
    { user_id := d.user_id.getD "anonymous"
      preferred_content := d.preferred_content.getD ""
      rejected_content := d.rejected_content.getD ""
      feedback_type := d.feedback_type.getD "quality"
      confidence := d.confidence.getD 1
      context := d.context.getD "" }
  let st1 := st.logCall (ClientCall.recordUserFeedback args)
  match sg.record_user_feedback args with
  | Except.ok preference_id =>
      ({ st1 with stats :=
          { st1.stats with
              preference_logs := st1.stats.preference_logs + 1 } },
       "User preference recorded: " ++ preference_id)
  | Except.error e =>
      (st1, "Preference logging error: " ++ e.msg)

/-- `_handle_monitoring` (lines 304-344); the `monitoring_log` dict built
at lines 324-330 is dead code in the source (never passed anywhere) and is
therefore not part of the state effect. -/
def _handle_monitoring (sg : SemanticGraphAgent) (_now : String)
    (d : MonitoringData) (st : IntegrationState) : IntegrationState × String :=
  let step_name := d.step_name.getD "unknown"
  let execution_time := d.execution_time.getD 0
  let success := d.success.getD true
  let st1 := st.logCall
    (ClientCall.recordOperationTime step_name (execution_time * 1000))
  let afterErrorCheck : IntegrationState → IntegrationState × String :=
    fun st2 =>
      let ce : ContextEventArgs :=
        { context_type := "monitoring"
          content := "Step: " ++ step_name ++ ", Time: " ++
            fmt2 execution_time ++ "s"
          relevance := 3/10 }
      let st3 := st2.logCall (ClientCall.recordContextEvent ce)
      match sg.record_context_event ce with
      | Except.error e => (st3, "Monitoring integration error: " ++ e.msg)
      | Except.ok _ =>
          ({ st3 with stats :=
              { st3.stats with
                  monitoring_events := st3.stats.monitoring_events + 1 } },
           "Monitoring data recorded for step: " ++ step_name)
  match sg.record_operation_time step_name (execution_time * 1000) with
  | Except.error e => (st1, "Monitoring integration error: " ++ e.msg)
  | Except.ok _ =>
    if success then afterErrorCheck st1
    else
      let error_type := d.error_type.getD "general_error"
      let st2 := st1.logCall (ClientCall.recordError error_type)
      match sg.record_error error_type with
      | Except.error e => (st2, "Monitoring integration error: " ++ e.msg)
      | Except.ok _ => afterErrorCheck st2

/-! ## Method wrappers (`integrate_*`, lines 348-461)

A host method that may touch the integration instance (because it has
already been wrapped) is modelled as a state transformer
`args → IntegrationState → IntegrationState × Except Exn ρ`; an unwrapped
host method is pure and is lifted with `lift*`. -/

/-- Type of a (possibly already wrapped) `tool_executor.invoke`. -/
structure ToolInput where
  tool : Option String := none
  tool_input : Option String := none
deriving DecidableEq, Repr

def InvokeS (ρ : Type) : Type :=
  ToolInput → IntegrationState → IntegrationState × Except Exn ρ

/-- A host `invoke` method that does not touch the integration state. -/
def liftInvoke {ρ : Type} (f : ToolInput → Except Exn ρ) : InvokeS ρ :=
  fun inp st => (st, f inp)

structure ToolExecutor (ρ : Type) where
  invoke : InvokeS ρ

/-- The `enhanced_invoke` closure built by `integrate_tool_executor`
(lines 376-406).  `show_` models Python's `str` on host results; `elapsed`
models the measured wall-clock duration.  On a raise from the original the
wrapper records the failure and then raises `Exception(error)` — a fresh
exception of class `Exception` carrying `str(e)`. -/
def enhanced_invoke {ρ : Type} (show_ : ρ → String) (sg : SemanticGraphAgent)
    (now : String) (elapsed : Rat) (original : InvokeS ρ) : InvokeS ρ :=
  fun tool_input st =>
    let (st1, res) := original tool_input st
    match res with
    | Except.ok result =>
        let tool_data : ToolData :=
          { tool_name := some (tool_input.tool.getD "unknown")
            tool_input := some (tool_input.tool_input.getD "")
            tool_output := some (show_ result)
            execution_time := some elapsed
            success := some true
            error := none }
        let (st2, _) := _handle_tool_usage sg now tool_data st1
        (st2, Except.ok result)
    | Except.error e =>
        let tool_data : ToolData :=
          { tool_name := some (tool_input.tool.getD "unknown")
            tool_input := some (tool_input.tool_input.getD "")
            tool_output := some ("Tool execution failed: " ++ e.msg)
            execution_time := some elapsed
            success := some false
            error := some e.msg }
        let (st2, _) := _handle_tool_usage sg now tool_data st1
        (st2, Except.error { ty := "Exception", msg := e.msg })

/-- `integrate_tool_executor` (lines 372-410): replaces `invoke` by the
wrapper closed over the previous `invoke`; the source has no
already-wrapped guard. -/
def integrate_tool_executor {ρ : Type} (show_ : ρ → String)
    (sg : SemanticGraphAgent) (now : String) (elapsed : Rat)
    (tool_executor : ToolExecutor ρ) : ToolExecutor ρ :=
  { invoke := enhanced_invoke show_ sg now elapsed tool_executor.invoke }

/-- The `**kwargs` of `save_research_finding`: keys merged into the
`memory_data` dict (line 362); a key present in kwargs overrides the
earlier entry. -/
structure KwArgs where
  content : Option String := none
  importance : Option Rat := none
  memory_type : Option String := none
  session_id : Option String := none
  concepts : Option (List String) := none
  citations : Option (List String) := none
deriving DecidableEq, Repr

def SaveS (ρ : Type) : Type :=
  String → Rat → KwArgs → IntegrationState → IntegrationState × Except Exn ρ

/-- A host `save_research_finding` that does not touch integration state. -/
def liftSave {ρ : Type} (f : String → Rat → KwArgs → Except Exn ρ) : SaveS ρ :=
  fun c i kw st => (st, f c i kw)

structure MemoryManager (ρ : Type) where
  save_research_finding : SaveS ρ
  current_episode_id : Option String := none

/-- The `enhanced_save_finding` closure built by `integrate_memory_manager`
(lines 352-366): if the original save raises, the exception propagates
before the normalizer is reached. -/
def enhanced_save_finding {ρ : Type} (sg : SemanticGraphAgent) (now : String)
    (episode_id : Option String) (original : SaveS ρ) : SaveS ρ :=
  fun content importance kwargs st =>
    let (st1, res) := original content importance kwargs st
    match res with
    | Except.error e => (st1, Except.error e)
    | Except.ok result =>
        let memory_data : MemoryData :=
          { content := some (kwargs.content.getD content)
            importance := some (kwargs.importance.getD importance)
            memory_type := some (kwargs.memory_type.getD "research_finding")
            session_id :=
              some (kwargs.session_id.getD (episode_id.getD "default"))
            concepts := kwargs.concepts
            citations := kwargs.citations }
        let (st2, _) := _handle_memory_output sg now memory_data st1
        (st2, Except.ok result)

/-- `integrate_memory_manager` (lines 348-370): replaces
`save_research_finding` by the wrapper; no already-wrapped guard. -/
def integrate_memory_manager {ρ : Type} (sg : SemanticGraphAgent)
    (now : String) (memory_manager : MemoryManager ρ) : MemoryManager ρ :=
  { memory_manager with
      save_research_finding :=
        enhanced_save_finding sg now memory_manager.current_episode_id
          memory_manager.save_research_finding }

/-- One entry of the `findings` list carried by the research state. -/
structure Finding where
  step : Option Nat := none
  step_description : Option String := none
  analysis : Option String := none
  external_research : Option (List String) := none
deriving DecidableEq, Repr

/-- Host research state: the wrapper inspects only `findings`; `rest`
stands for every other key, so "returned unchanged" is nontrivial. -/
structure ResearchState where
  findings : Option (List Finding) := none
  rest : String := ""
deriving DecidableEq, Repr

def StepS : Type :=
  ResearchState → IntegrationState → IntegrationState × Except Exn ResearchState

def liftStep (f : ResearchState → Except Exn ResearchState) : StepS :=
  fun s st => (st, f s)

structure ResearchAgent where
  execute_research_step : StepS

/-- The `enhanced_execute_step` closure built by `integrate_research_loop`
(lines 416-435): the normalizer runs only after a successful original call
and only when the result state has a non-empty `findings` list; the finding
payload is drawn from the last finding. -/
def enhanced_execute_step (sg : SemanticGraphAgent) (now : String)
    (original : StepS) : StepS :=
  fun state st =>
    let (st1, res) := original state st
    match res with
    | Except.error e => (st1, Except.error e)
    | Except.ok result_state =>
        match result_state.findings with
        | some (f :: fs) =>
            let latest_finding := (f :: fs).getLast (List.cons_ne_nil f fs)
            let finding_data : FindingData :=
              { finding := some (latest_finding.analysis.getD "")
                step_info := some
                  { step_number := some (latest_finding.step.getD 0)
                    step_description :=
                      some (latest_finding.step_description.getD "") }
                confidence := some (7/10)
                sources := some (latest_finding.external_research.getD [])
                analysis := some (latest_finding.analysis.getD "") }
            let (st2, _) := _handle_finding sg now finding_data st1
            (st2, Except.ok result_state)
        | _ => (st1, Except.ok result_state)

/-- `integrate_research_loop` (lines 412-439): replaces
`execute_research_step` by the wrapper; no already-wrapped guard. -/
def integrate_research_loop (sg : SemanticGraphAgent) (now : String)
    (research_agent : ResearchAgent) : ResearchAgent :=
  { execute_research_step :=
      enhanced_execute_step sg now research_agent.execute_research_step }

def CaptureS (α β ρ : Type) : Type :=
  α → β → String → IntegrationState → IntegrationState × Except Exn ρ

def liftCapture {α β ρ : Type} (f : α → β → String → Except Exn ρ) :
    CaptureS α β ρ :=
  fun a b sid st => (st, f a b sid)

/-- The `enhanced_capture_output` closure built by `integrate_rlhf_system`
(lines 446-458): after a successful original call it invokes
`record_context_event` directly, with no surrounding try/except — a raise
from that collaborator call propagates to the caller. -/
def enhanced_capture_output {α β ρ : Type} (sg : SemanticGraphAgent)
    (original : CaptureS α β ρ) : CaptureS α β ρ :=
  fun research_result research_question session_id st =>
    let (st1, res) := original research_result research_question session_id st
    match res with
    | Except.error e => (st1, Except.error e)
    | Except.ok result =>
        let ce : ContextEventArgs :=
          { context_type := "rlhf_capture"
            content := "Research output captured for feedback: " ++ session_id
            relevance := 1/2 }
        let st2 := st1.logCall (ClientCall.recordContextEvent ce)
        match sg.record_context_event ce with
        | Except.error e => (st2, Except.error e)
        | Except.ok _ => (st2, Except.ok result)

/-! ## Query operations -/

/-- Sum of the seven counters (`sum(self.integration_stats.values())`). -/
def sumStats (s : IntegrationStats) : Nat :=
  s.memory_writes + s.tool_usage_logs + s.findings_captured +
    s.retrieval_calls + s.plan_generations + s.preference_logs +
    s.monitoring_events

/-- The dict returned by `get_integration_statistics` (lines 463-473). -/
structure IntegrationStatistics where
  integration_stats : IntegrationStats
  semantic_graph_stats : String
  hooks_registered : Nat
  total_integrations : Nat
  last_updated : String
deriving DecidableEq, Repr

/-- `get_integration_statistics` (lines 463-473). -/
def get_integration_statistics (sg : SemanticGraphAgent) (now : String)
    (st : IntegrationState) : IntegrationStatistics :=
  { integration_stats := st.stats
    semantic_graph_stats := sg.get_comprehensive_stats
    hooks_registered := st.integration_hooks.length
    total_integrations := sumStats st.stats
    last_updated := now }

/-- The dict returned by `get_integration_health` (lines 479-495). -/
structure HealthSnapshot where
  integration_points_active : Nat
  total_events_processed : Nat
  semantic_graph_health : String
  integration_errors : Nat
  last_activity : String
  status : String
deriving DecidableEq, Repr

/-- `get_integration_health` (lines 479-495): `integration_errors` is the
literal constant `0` in the source. -/
def get_integration_health (sg : SemanticGraphAgent) (now : String)
    (st : IntegrationState) : HealthSnapshot :=
  let total := sumStats st.stats
  { integration_points_active := st.integration_hooks.length
    total_events_processed := total
    semantic_graph_health := sg.get_monitoring_dashboard_data
    integration_errors := 0
    last_activity := now
    status := if total > 0 then "active" else "idle" }

/-! ## Step relation

One step is one invocation of one of the seven registered normalizers (with
an arbitrary collaborator, payload and timestamp), or a trace-only
collaborator call (covering the direct `record_context_event` of the RLHF
wrapper, which bypasses every normalizer). -/

inductive HookStep : IntegrationState → IntegrationState → Prop where
  | memory (sg : SemanticGraphAgent) (now : String) (d : MemoryData)
      (st : IntegrationState) :
      HookStep st (_handle_memory_output sg now d st).1
  | tool (sg : SemanticGraphAgent) (now : String) (d : ToolData)
      (st : IntegrationState) :
      HookStep st (_handle_tool_usage sg now d st).1
  | finding (sg : SemanticGraphAgent) (now : String) (d : FindingData)
      (st : IntegrationState) :
      HookStep st (_handle_finding sg now d st).1
  | retrieval (sg : SemanticGraphAgent) (now : String) (d : RetrievalData)
      (st : IntegrationState) :
      HookStep st (_handle_retrieval sg now d st).1
  | planning (sg : SemanticGraphAgent) (now : String) (d : PlanningData)
      (st : IntegrationState) :
      HookStep st (_handle_planning sg now d st).1
  | preference (sg : SemanticGraphAgent) (now : String) (d : PreferenceData)
      (st : IntegrationState) :
      HookStep st (_handle_preference sg now d st).1
  | monitoring (sg : SemanticGraphAgent) (now : String) (d : MonitoringData)
      (st : IntegrationState) :
      HookStep st (_handle_monitoring sg now d st).1
  | contextOnly (c : ClientCall) (st : IntegrationState) :
      HookStep st (st.logCall c)

/-- Reachability along finitely many hook invocations. -/
def Reaches : IntegrationState → IntegrationState → Prop :=
  Relation.ReflTransGen HookStep

/-! ## Invariant lemmas -/

/-- Pointwise order on the seven counters. -/
def StatsLe (a b : IntegrationStats) : Prop :=
  a.memory_writes ≤ b.memory_writes ∧
  a.tool_usage_logs ≤ b.tool_usage_logs ∧
  a.findings_captured ≤ b.findings_captured ∧
  a.retrieval_calls ≤ b.retrieval_calls ∧
  a.plan_generations ≤ b.plan_generations ∧
  a.preference_logs ≤ b.preference_logs ∧
  a.monitoring_events ≤ b.monitoring_events

lemma StatsLe.refl (a : IntegrationStats) : StatsLe a a := by
  unfold StatsLe; omega

lemma StatsLe.trans {a b c : IntegrationStats} (h1 : StatsLe a b)
    (h2 : StatsLe b c) : StatsLe a c := by
  unfold StatsLe at *; omega

lemma StatsLe.sum_le {a b : IntegrationStats} (h : StatsLe a b) :
    sumStats a ≤ sumStats b := by
  unfold StatsLe at h; unfold sumStats; omega

lemma memory_step_mono (sg : SemanticGraphAgent) (now : String)
    (d : MemoryData) (st : IntegrationState) :
    (_handle_memory_output sg now d st).1.integration_hooks =
        st.integration_hooks ∧
    StatsLe st.stats (_handle_memory_output sg now d st).1.stats := by
  simp only [_handle_memory_output, IntegrationState.logCall]
  split <;> simp [StatsLe]

lemma tool_step_mono (sg : SemanticGraphAgent) (now : String)
    (d : ToolData) (st : IntegrationState) :
    (_handle_tool_usage sg now d st).1.integration_hooks =
        st.integration_hooks ∧
    StatsLe st.stats (_handle_tool_usage sg now d st).1.stats := by
  simp only [_handle_tool_usage, IntegrationState.logCall]
  split <;> simp [StatsLe]

lemma finding_step_mono (sg : SemanticGraphAgent) (now : String)
    (d : FindingData) (st : IntegrationState) :
    (_handle_finding sg now d st).1.integration_hooks =
        st.integration_hooks ∧
    StatsLe st.stats (_handle_finding sg now d st).1.stats := by
  simp only [_handle_finding, IntegrationState.logCall]
  split <;> simp [StatsLe]

lemma retrieval_step_mono (sg : SemanticGraphAgent) (now : String)
    (d : RetrievalData) (st : IntegrationState) :
    (_handle_retrieval sg now d st).1.integration_hooks =
        st.integration_hooks ∧
    StatsLe st.stats (_handle_retrieval sg now d st).1.stats := by
  simp only [_handle_retrieval, IntegrationState.logCall]
  split <;> (try split) <;> simp [StatsLe]

lemma planning_step_mono (sg : SemanticGraphAgent) (now : String)
    (d : PlanningData) (st : IntegrationState) :
    (_handle_planning sg now d st).1.integration_hooks =
        st.integration_hooks ∧
    StatsLe st.stats (_handle_planning sg now d st).1.stats := by
  simp only [_handle_planning, IntegrationState.logCall]
  split <;> (try split) <;> simp [StatsLe]

lemma preference_step_mono (sg : SemanticGraphAgent) (now : String)
    (d : PreferenceData) (st : IntegrationState) :
    (_handle_preference sg now d st).1.integration_hooks =
        st.integration_hooks ∧
    StatsLe st.stats (_handle_preference sg now d st).1.stats := by
  simp only [_handle_preference, IntegrationState.logCall]
  split <;> simp [StatsLe]

lemma monitoring_step_mono (sg : SemanticGraphAgent) (now : String)
    (d : MonitoringData) (st : IntegrationState) :
    (_handle_monitoring sg now d st).1.integration_hooks =
        st.integration_hooks ∧
    StatsLe st.stats (_handle_monitoring sg now d st).1.stats := by
  simp only [_handle_monitoring, IntegrationState.logCall]
  split <;> (try split) <;> (try split) <;> (try split) <;> simp [StatsLe]

lemma hookStep_mono {s t : IntegrationState} (h : HookStep s t) :
    t.integration_hooks = s.integration_hooks ∧ StatsLe s.stats t.stats :=
  match h with
  | .memory sg now d st => memory_step_mono sg now d st
  | .tool sg now d st => tool_step_mono sg now d st
  | .finding sg now d st => finding_step_mono sg now d st
  | .retrieval sg now d st => retrieval_step_mono sg now d st
  | .planning sg now d st => planning_step_mono sg now d st
  | .preference sg now d st => preference_step_mono sg now d st
  | .monitoring sg now d st => monitoring_step_mono sg now d st
  | .contextOnly _ st => ⟨rfl, StatsLe.refl st.stats⟩

lemma reaches_mono {s t : IntegrationState} (h : Reaches s t) :
    t.integration_hooks = s.integration_hooks ∧ StatsLe s.stats t.stats := by
  induction h with
  | refl => exact ⟨rfl, StatsLe.refl s.stats⟩
  | tail _ hstep ih =>
      have h2 := hookStep_mono hstep
      exact ⟨h2.1.trans ih.1, ih.2.trans h2.2⟩

/-! ## Concrete fixtures for witnesses and counterexamples -/

/-- A retrieval result with one hit and a non-`results` key. -/
def r0 : RetrievalResult := { results := some ["hit"], extra := "x" }

/-- A plan result with one step. -/
def p0 : PlanResult :=
  { plan_steps := some ["s1"], graph_connectivity := some [("nodes", "3")]
    extra := "p" }

/-- A collaborator whose calls all succeed. -/
def sgOk : SemanticGraphAgent :=
  { ingest_event := fun _ _ _ => Except.ok ()
    enhanced_retrieval := fun _ => Except.ok r0
    enhanced_planning := fun _ => Except.ok p0
    record_user_feedback := fun _ => Except.ok "pref-1"
    record_operation_time := fun _ _ => Except.ok ()
    record_error := fun _ => Except.ok ()
    record_context_event := fun _ => Except.ok ()
    get_comprehensive_stats := "stats"
    get_monitoring_dashboard_data := "dash" }

/-- A collaborator whose calls all raise `e`. -/
def sgFail (e : Exn) : SemanticGraphAgent :=
  { ingest_event := fun _ _ _ => Except.error e
    enhanced_retrieval := fun _ => Except.error e
    enhanced_planning := fun _ => Except.error e
    record_user_feedback := fun _ => Except.error e
    record_operation_time := fun _ _ => Except.error e
    record_error := fun _ => Except.error e
    record_context_event := fun _ => Except.error e
    get_comprehensive_stats := "stats"
    get_monitoring_dashboard_data := "dash" }

/-- A collaborator whose retrieval succeeds but whose generic ingest raises. -/
def sgRetrMix : SemanticGraphAgent :=
  { sgOk with
      ingest_event := fun _ _ _ => Except.error { ty := "IOError", msg := "net" } }

/-- A collaborator whose context-event logging raises. -/
def sgCtxFail : SemanticGraphAgent :=
  { sgOk with
      record_context_event :=
        fun _ => Except.error { ty := "RuntimeError", msg := "down" } }

/-! ## Claim theorems -/

/-- C5: after every finite sequence of hook invocations (any interleaving of
the seven normalizers, each succeeding or failing), `total_integrations`
returned by `get_integration_statistics` equals the sum of the seven
per-kind counters in `integration_stats`, and every counter never
decreases (counters are `Nat`, hence non-negative). -/
theorem C5_total_is_sum_and_counters_monotone (sg : SemanticGraphAgent)
    (now : String) {s t : IntegrationState} (h : Reaches s t) :
    (get_integration_statistics sg now t).total_integrations =
      sumStats (get_integration_statistics sg now t).integration_stats ∧
    StatsLe s.stats t.stats :=
  ⟨rfl, (reaches_mono h).2⟩

/-- Witness for C5 at a concrete one-step run: a memory hook fired once
from the initial state. -/
theorem C5_witness :
    (get_integration_statistics sgOk "t2"
        (_handle_memory_output sgOk "t1" {} initialState).1).total_integrations =
      sumStats (get_integration_statistics sgOk "t2"
        (_handle_memory_output sgOk "t1" {} initialState).1).integration_stats ∧
    StatsLe initialState.stats
      (_handle_memory_output sgOk "t1" {} initialState).1.stats :=
  C5_total_is_sum_and_counters_monotone sgOk "t2"
    (Relation.ReflTransGen.single (HookStep.memory sgOk "t1" {} initialState))

/-- C6: in every state, `get_integration_health` reports status `"active"`
iff `total_events_processed` is positive and `"idle"` iff it is zero; and
along any further hook invocations (including failing ones) an `"active"`
status never returns to `"idle"`. -/
theorem C6_health_status_transition (sg sg2 : SemanticGraphAgent)
    (now now2 : String) {s t : IntegrationState} (h : Reaches s t) :
    ((get_integration_health sg now s).status = "active" ↔
      0 < (get_integration_health sg now s).total_events_processed) ∧
    ((get_integration_health sg now s).status = "idle" ↔
      (get_integration_health sg now s).total_events_processed = 0) ∧
    ((get_integration_health sg now s).status = "active" →
      (get_integration_health sg2 now2 t).status = "active") := by
  have hsum := (reaches_mono h).2.sum_le
  have key : ∀ (g : SemanticGraphAgent) (n : String) (u : IntegrationState),
      (get_integration_health g n u).status = "active" ↔
        0 < sumStats u.stats := by
    intro g n u
    by_cases hpos : 0 < sumStats u.stats <;>
      simp [get_integration_health, hpos]
  have key2 : ∀ (g : SemanticGraphAgent) (n : String) (u : IntegrationState),
      (get_integration_health g n u).status = "idle" ↔
        sumStats u.stats = 0 := by
    intro g n u
    by_cases hpos : 0 < sumStats u.stats <;>
      simp [get_integration_health, hpos] <;> omega
  refine ⟨?_, ?_, ?_⟩
  · exact key sg now s
  · exact key2 sg now s
  · intro ha
    exact (key sg2 now2 t).mpr (lt_of_lt_of_le ((key sg now s).mp ha) hsum)

/-- Witness for C6 at a concrete one-step run. -/
theorem C6_witness :
    ((get_integration_health sgOk "t2" initialState).status = "active" ↔
      0 < (get_integration_health sgOk "t2" initialState).total_events_processed) ∧
    ((get_integration_health sgOk "t2" initialState).status = "idle" ↔
      (get_integration_health sgOk "t2" initialState).total_events_processed = 0) ∧
    ((get_integration_health sgOk "t2" initialState).status = "active" →
      (get_integration_health sgOk "t3"
        (_handle_memory_output sgOk "t1" {} initialState).1).status = "active") :=
  C6_health_status_transition sgOk sgOk "t2" "t3"
    (Relation.ReflTransGen.single (HookStep.memory sgOk "t1" {} initialState))

/-- C9: in every state reachable from construction the hook registry holds
exactly seven entries, `get_integration_statistics` reports
`hooks_registered = 7` and `get_integration_health` reports
`integration_points_active = 7`. -/
theorem C9_seven_hooks (sg : SemanticGraphAgent) (now : String)
    {t : IntegrationState} (h : Reaches initialState t) :
    t.integration_hooks.length = 7 ∧
    (get_integration_statistics sg now t).hooks_registered = 7 ∧
    (get_integration_health sg now t).integration_points_active = 7 := by
  have hh := (reaches_mono h).1
  refine ⟨?_, ?_, ?_⟩ <;>
    simp [get_integration_statistics, get_integration_health, hh,
      initialState, _register_integration_hooks]

/-- Witness for C9 after one concrete hook invocation. -/
theorem C9_witness :
    (_handle_tool_usage sgOk "t1" {} initialState).1.integration_hooks.length = 7 ∧
    (get_integration_statistics sgOk "t2"
      (_handle_tool_usage sgOk "t1" {} initialState).1).hooks_registered = 7 ∧
    (get_integration_health sgOk "t2"
      (_handle_tool_usage sgOk "t1" {} initialState).1).integration_points_active = 7 :=
  C9_seven_hooks sgOk "t2"
    (Relation.ReflTransGen.single (HookStep.tool sgOk "t1" {} initialState))

/-- C2: when the collaborator's forwarding calls raise, none of the
MemoryWrite / ToolUsage / Finding / Monitoring normalizers propagates the
exception: each returns its error-message string (and the Retrieval
normalizer returns the error shape), and the counters are unchanged. -/
theorem C2_forwarding_failure_isolated (sg : SemanticGraphAgent)
    (now : String) (e : Exn) (st : IntegrationState)
    (hIngest : ∀ src data prio, sg.ingest_event src data prio = Except.error e)
    (hOpTime : ∀ name ms, sg.record_operation_time name ms = Except.error e) :
    (∀ d : MemoryData,
      (_handle_memory_output sg now d st).1.stats = st.stats ∧
      (_handle_memory_output sg now d st).2 =
        "Memory integration error: " ++ e.msg) ∧
    (∀ d : ToolData,
      (_handle_tool_usage sg now d st).1.stats = st.stats ∧
      (_handle_tool_usage sg now d st).2 =
        "Tool usage integration error: " ++ e.msg) ∧
    (∀ d : FindingData,
      (_handle_finding sg now d st).1.stats = st.stats ∧
      (_handle_finding sg now d st).2 = "Finding capture error: " ++ e.msg) ∧
    (∀ d : MonitoringData,
      (_handle_monitoring sg now d st).1.stats = st.stats ∧
      (_handle_monitoring sg now d st).2 =
        "Monitoring integration error: " ++ e.msg) ∧
    (∀ d : RetrievalData,
      (_handle_retrieval sg now d st).1.stats = st.stats ∧
      ∃ msg, (_handle_retrieval sg now d st).2 = DictReturn.errorShape msg) := by
  refine ⟨fun d => ?_, fun d => ?_, fun d => ?_, fun d => ?_, fun d => ?_⟩
  · simp [_handle_memory_output, IntegrationState.logCall, hIngest]
  · simp [_handle_tool_usage, IntegrationState.logCall, hIngest]
  · simp [_handle_finding, IntegrationState.logCall, hIngest]
  · simp [_handle_monitoring, IntegrationState.logCall, hOpTime]
  · simp only [_handle_retrieval, IntegrationState.logCall]
    split
    · next e2 heq => exact ⟨rfl, e2.msg, rfl⟩
    · next r heq =>
        rw [hIngest]
        exact ⟨rfl, e.msg, rfl⟩

/-- Witness for C2: a concretely failing collaborator, empty payloads. -/
theorem C2_witness :
    ((_handle_memory_output (sgFail ⟨"RuntimeError", "backend down"⟩) "t" {}
        initialState).1.stats = initialState.stats ∧
      (_handle_memory_output (sgFail ⟨"RuntimeError", "backend down"⟩) "t" {}
        initialState).2 = "Memory integration error: " ++ "backend down") ∧
    ((_handle_tool_usage (sgFail ⟨"RuntimeError", "backend down"⟩) "t" {}
        initialState).1.stats = initialState.stats ∧
      (_handle_tool_usage (sgFail ⟨"RuntimeError", "backend down"⟩) "t" {}
        initialState).2 = "Tool usage integration error: " ++ "backend down") ∧
    ((_handle_finding (sgFail ⟨"RuntimeError", "backend down"⟩) "t" {}
        initialState).1.stats = initialState.stats ∧
      (_handle_finding (sgFail ⟨"RuntimeError", "backend down"⟩) "t" {}
        initialState).2 = "Finding capture error: " ++ "backend down") ∧
    ((_handle_monitoring (sgFail ⟨"RuntimeError", "backend down"⟩) "t" {}
        initialState).1.stats = initialState.stats ∧
      (_handle_monitoring (sgFail ⟨"RuntimeError", "backend down"⟩) "t" {}
        initialState).2 = "Monitoring integration error: " ++ "backend down") ∧
    ((_handle_retrieval (sgFail ⟨"RuntimeError", "backend down"⟩) "t" {}
        initialState).1.stats = initialState.stats ∧
      ∃ msg, (_handle_retrieval (sgFail ⟨"RuntimeError", "backend down"⟩) "t" {}
        initialState).2 = DictReturn.errorShape msg) := by
  have h := C2_forwarding_failure_isolated
    (sgFail ⟨"RuntimeError", "backend down"⟩) "t"
    ⟨"RuntimeError", "backend down"⟩ initialState
    (fun _ _ _ => rfl) (fun _ _ => rfl)
  exact ⟨h.1 {}, h.2.1 {}, h.2.2.1 {}, h.2.2.2.1 {}, h.2.2.2.2 {}⟩

/-- C7: for every event kind, the normalizer applied to an empty payload
does not raise, resolves every missing field to the documented default,
and — when the collaborator calls succeed — increments exactly its own
counter by one, leaving the other six unchanged.  The equalities exhibit
the exact forwarded records, so the defaults are visible in the trace. -/
theorem C7_empty_payload_defaults (sg : SemanticGraphAgent) (now : String)
    (st : IntegrationState) (r : RetrievalResult) (p : PlanResult)
    (pid : String)
    (hIngest : ∀ src data prio, sg.ingest_event src data prio = Except.ok ())
    (hRetr : ∀ a, sg.enhanced_retrieval a = Except.ok r)
    (hPlan : ∀ a, sg.enhanced_planning a = Except.ok p)
    (hFb : ∀ a, sg.record_user_feedback a = Except.ok pid)
    (hOpTime : ∀ name ms, sg.record_operation_time name ms = Except.ok ())
    (hCtx : ∀ ce, sg.record_context_event ce = Except.ok ()) :
    _handle_memory_output sg now {} st =
      ({ st with
          stats := { st.stats with memory_writes := st.stats.memory_writes + 1 }
          calls := st.calls ++ [ClientCall.ingestEvent IngestionSource.MEMORY
            (IngestData.memory
              { content := "", importance := 1/2, memory_type := "general"
                session_id := "default", timestamp := now
                source := "memory_manager", concepts := none
                citations := none }) 2] },
       "Memory content ingested into semantic graph: " ++ toString (0 : Nat) ++
         " chars") ∧
    _handle_tool_usage sg now {} st =
      ({ st with
          stats :=
            { st.stats with tool_usage_logs := st.stats.tool_usage_logs + 1 }
          calls := st.calls ++ [ClientCall.ingestEvent IngestionSource.TOOL_USAGE
            (IngestData.toolUsage
              { tool_name := "", input := "", output := ""
                execution_time := 0, success := true, timestamp := now
                usage_context := "research" }) 1] },
       "Tool usage logged: " ++ "" ++ " -> semantic graph") ∧
    _handle_finding sg now {} st =
      ({ st with
          stats :=
            { st.stats with
                findings_captured := st.stats.findings_captured + 1 }
          calls := st.calls ++
            [ClientCall.ingestEvent IngestionSource.RESEARCH_FINDINGS
              (IngestData.research
                { finding := "", analysis := "", confidence := 1/2
                  sources := [], step_info := {}, research_step := 0
                  timestamp := now }) 2] },
       "Research finding captured: " ++ toString (0 : Nat) ++ " chars") ∧
    _handle_retrieval sg now {} st =
      ({ st with
          stats :=
            { st.stats with retrieval_calls := st.stats.retrieval_calls + 1 }
          calls := st.calls ++
            [ClientCall.enhancedRetrieval
              { query := "", query_embedding := none, strategy := "hybrid"
                top_k := 10, node_types := none },
             ClientCall.ingestEvent IngestionSource.RETRIEVAL_LOGS
              (IngestData.retrievalLog
                { query := "", strategy := "hybrid"
                  results_count := (r.results.getD []).length
                  timestamp := now }) 1] },
       DictReturn.passthrough r) ∧
    _handle_planning sg now {} st =
      ({ st with
          stats :=
            { st.stats with
                plan_generations := st.stats.plan_generations + 1 }
          calls := st.calls ++
            [ClientCall.enhancedPlanning
              { research_question := "", context := [], strategy := "hybrid"
                max_steps := 8 },
             ClientCall.ingestEvent IngestionSource.PLANNER_OUTPUTS
              (IngestData.planningLog
                { research_question := "", strategy := "hybrid"
                  plan_steps := (p.plan_steps.getD []).length
                  graph_connectivity := p.graph_connectivity.getD []
                  timestamp := now }) 2] },
       DictReturn.passthrough p) ∧
    _handle_preference sg now {} st =
      ({ st with
          stats :=
            { st.stats with
                preference_logs := st.stats.preference_logs + 1 }
          calls := st.calls ++
            [ClientCall.recordUserFeedback
              { user_id := "anonymous", preferred_content := ""
                rejected_content := "", feedback_type := "quality"
                confidence := 1, context := "" }] },
       "User preference recorded: " ++ pid) ∧
    _handle_monitoring sg now {} st =
      ({ st with
          stats :=
            { st.stats with
                monitoring_events := st.stats.monitoring_events + 1 }
          calls := st.calls ++
            [ClientCall.recordOperationTime "unknown" 0,
             ClientCall.recordContextEvent
              { context_type := "monitoring"
                content := "Step: " ++ "unknown" ++ ", Time: " ++
                  fmt2 0 ++ "s"
                relevance := 3/10 }] },
       "Monitoring data recorded for step: " ++ "unknown") := by
  refine ⟨?_, ?_, ?_, ?_, ?_, ?_, ?_⟩
  · simp [_handle_memory_output, IntegrationState.logCall, hIngest]
  · simp [_handle_tool_usage, IntegrationState.logCall, hIngest]
  · simp [_handle_finding, IntegrationState.logCall, hIngest]
  · simp [_handle_retrieval, IntegrationState.logCall, hIngest, hRetr]
  · simp [_handle_planning, IntegrationState.logCall, hIngest, hPlan]
  · simp [_handle_preference, IntegrationState.logCall, hFb]
  · simp [_handle_monitoring, IntegrationState.logCall, hOpTime, hCtx]

/-- Witness for C7: the always-succeeding collaborator on empty payloads,
starting from the initial state; each counter ends at one. -/
theorem C7_witness :
    (_handle_memory_output sgOk "t" {} initialState).1.stats.memory_writes = 1 ∧
    (_handle_tool_usage sgOk "t" {} initialState).1.stats.tool_usage_logs = 1 ∧
    (_handle_finding sgOk "t" {} initialState).1.stats.findings_captured = 1 ∧
    (_handle_retrieval sgOk "t" {} initialState).1.stats.retrieval_calls = 1 ∧
    (_handle_planning sgOk "t" {} initialState).1.stats.plan_generations = 1 ∧
    (_handle_preference sgOk "t" {} initialState).1.stats.preference_logs = 1 ∧
    (_handle_monitoring sgOk "t" {} initialState).1.stats.monitoring_events = 1
    := by
  have h := C7_empty_payload_defaults sgOk "t" initialState r0 p0 "pref-1"
    (fun _ _ _ => rfl) (fun _ => rfl) (fun _ => rfl) (fun _ => rfl)
    (fun _ _ => rfl) (fun _ => rfl)
  refine ⟨?_, ?_, ?_, ?_, ?_, ?_, ?_⟩
  · rw [h.1]
    rfl
  · rw [h.2.1]
    rfl
  · rw [h.2.2.1]
    rfl
  · rw [h.2.2.2.1]
    rfl
  · rw [h.2.2.2.2.1]
    rfl
  · rw [h.2.2.2.2.2.1]
    rfl
  · rw [h.2.2.2.2.2.2]
    rfl

/-- A host tool whose invoke succeeds with `"out"`. -/
def okInvoke : ToolInput → Except Exn String := fun _ => Except.ok "out"

/-- A host tool whose invoke raises `ValueError("boom")`. -/
def failInvoke : ToolInput → Except Exn String :=
  fun _ => Except.error { ty := "ValueError", msg := "boom" }

/-- A concrete tool input. -/
def inp0 : ToolInput := { tool := some "calc", tool_input := some "2+2" }

/-- The unwrapped, once-wrapped and twice-wrapped tool executors. -/
def te0 : ToolExecutor String := { invoke := liftInvoke okInvoke }

def te1 : ToolExecutor String := integrate_tool_executor id sgOk "t" 0 te0

def te2 : ToolExecutor String := integrate_tool_executor id sgOk "t" 0 te1

/-- A host save method that succeeds with `"saved"`. -/
def okSave : String → Rat → KwArgs → Except Exn String :=
  fun _ _ _ => Except.ok "saved"

/-- A host save method that raises `ValueError("disk")`. -/
def failSave : String → Rat → KwArgs → Except Exn String :=
  fun _ _ _ => Except.error { ty := "ValueError", msg := "disk" }

/-- A host research step returning a state with one finding. -/
def okStep : ResearchState → Except Exn ResearchState :=
  fun s => Except.ok
    { findings := some [{ step := some 3, analysis := some "a" }]
      rest := s.rest }

/-- A host research step that raises `KeyError("state")`. -/
def failStep : ResearchState → Except Exn ResearchState :=
  fun _ => Except.error { ty := "KeyError", msg := "state" }

/-- A host RLHF capture method that succeeds with `"res"`. -/
def okCapture : String → String → String → Except Exn String :=
  fun _ _ _ => Except.ok "res"

/-- A host RLHF capture method that raises `TypeError("cap")`. -/
def failCapture : String → String → String → Except Exn String :=
  fun _ _ _ => Except.error { ty := "TypeError", msg := "cap" }

/-- C1 counterexample: the claim says re-applying `integrate_tool_executor`
leaves one instrumentation layer so the normalizer fires exactly once per
call; in the source there is no guard, so after double wrapping one invoke
fires the tool-usage normalizer twice — counter 2, not 1. -/
theorem C1_counterexample :
    (te2.invoke inp0 initialState).1.stats.tool_usage_logs = 2 ∧
    (te2.invoke inp0 initialState).1.stats.tool_usage_logs ≠ 1 ∧
    (te1.invoke inp0 initialState).1.stats.tool_usage_logs = 1 :=
  ⟨rfl, by decide, rfl⟩

/-- C1 amended: applying an `integrate_*` operation twice stacks two
instrumentation layers: per original call the normalizer fires twice (each
counter advances by two when forwarding succeeds), but the value returned
to the caller is the same as after a single wrapping. -/
theorem C1_amended_double_wrap {ρ σ : Type} (show_ : ρ → String)
    (sg : SemanticGraphAgent) (now : String) (elapsed : Rat)
    (st : IntegrationState)
    (hIngest : ∀ src data prio, sg.ingest_event src data prio = Except.ok ())
    (f : ToolInput → Except Exn ρ) (inp : ToolInput)
    (g : String → Rat → KwArgs → Except Exn σ) (content : String)
    (importance : Rat) (kw : KwArgs) (epi : Option String) (rg : σ)
    (hg : g content importance kw = Except.ok rg)
    (hstep : ResearchState → Except Exn ResearchState) (s0 rs : ResearchState)
    (hs : hstep s0 = Except.ok rs) (f1 : Finding) (fs : List Finding)
    (hfind : rs.findings = some (f1 :: fs)) :
    (((integrate_tool_executor show_ sg now elapsed
        (integrate_tool_executor show_ sg now elapsed
          { invoke := liftInvoke f })).invoke inp st).1.stats.tool_usage_logs
        = st.stats.tool_usage_logs + 2 ∧
      ((integrate_tool_executor show_ sg now elapsed
        (integrate_tool_executor show_ sg now elapsed
          { invoke := liftInvoke f })).invoke inp st).2
        = ((integrate_tool_executor show_ sg now elapsed
            { invoke := liftInvoke f }).invoke inp st).2) ∧
    (((integrate_memory_manager sg now (integrate_memory_manager sg now
        { save_research_finding := liftSave g
          current_episode_id := epi })).save_research_finding
        content importance kw st).1.stats.memory_writes
        = st.stats.memory_writes + 2 ∧
      ((integrate_memory_manager sg now (integrate_memory_manager sg now
        { save_research_finding := liftSave g
          current_episode_id := epi })).save_research_finding
        content importance kw st).2 = Except.ok rg) ∧
    (((integrate_research_loop sg now (integrate_research_loop sg now
        { execute_research_step := liftStep hstep })).execute_research_step
        s0 st).1.stats.findings_captured = st.stats.findings_captured + 2 ∧
      ((integrate_research_loop sg now (integrate_research_loop sg now
        { execute_research_step := liftStep hstep })).execute_research_step
        s0 st).2 = Except.ok rs) := by
  refine ⟨⟨?_, ?_⟩, ⟨?_, ?_⟩, ⟨?_, ?_⟩⟩
  · cases hr : f inp <;>
      simp [integrate_tool_executor, enhanced_invoke, liftInvoke, hr,
        _handle_tool_usage, IntegrationState.logCall, hIngest]
  · cases hr : f inp <;>
      simp [integrate_tool_executor, enhanced_invoke, liftInvoke, hr,
        _handle_tool_usage, IntegrationState.logCall, hIngest]
  · simp [integrate_memory_manager, enhanced_save_finding, liftSave, hg,
      _handle_memory_output, IntegrationState.logCall, hIngest]
  · simp [integrate_memory_manager, enhanced_save_finding, liftSave, hg,
      _handle_memory_output, IntegrationState.logCall, hIngest]
  · simp [integrate_research_loop, enhanced_execute_step, liftStep, hs,
      hfind, _handle_finding, IntegrationState.logCall, hIngest]
  · simp [integrate_research_loop, enhanced_execute_step, liftStep, hs,
      hfind, _handle_finding, IntegrationState.logCall, hIngest]

/-- Witness for the amended C1 at concrete hosts: each doubly wrapped
method advances its counter by two on one call. -/
theorem C1_witness :
    (te2.invoke inp0 initialState).1.stats.tool_usage_logs
      = initialState.stats.tool_usage_logs + 2 ∧
    ((integrate_memory_manager sgOk "t" (integrate_memory_manager sgOk "t"
        { save_research_finding := liftSave okSave
          current_episode_id := none })).save_research_finding
        "c" 1 {} initialState).1.stats.memory_writes
      = initialState.stats.memory_writes + 2 ∧
    ((integrate_research_loop sgOk "t" (integrate_research_loop sgOk "t"
        { execute_research_step := liftStep okStep })).execute_research_step
        {} initialState).1.stats.findings_captured
      = initialState.stats.findings_captured + 2 := by
  have h := C1_amended_double_wrap id sgOk "t" 0 initialState
    (fun _ _ _ => rfl) okInvoke inp0 okSave "c" 1 {} none "saved" rfl
    okStep {} { findings := some [{ step := some 3, analysis := some "a" }]
                rest := "" }
    rfl { step := some 3, analysis := some "a" } [] rfl
  exact ⟨h.1.1, h.2.1.1, h.2.2.1⟩

/-- C3 counterexample: the original invoke raises `ValueError("boom")` but
the wrapper re-raises a fresh `Exception("boom")` — the original exception
does not propagate unchanged. -/
theorem C3_counterexample :
    failInvoke inp0 = Except.error { ty := "ValueError", msg := "boom" } ∧
    (enhanced_invoke id sgOk "t" 0 (liftInvoke failInvoke) inp0
        initialState).2 = Except.error { ty := "Exception", msg := "boom" } ∧
    (enhanced_invoke id sgOk "t" 0 (liftInvoke failInvoke) inp0
        initialState).2
      ≠ Except.error { ty := "ValueError", msg := "boom" } := by
  refine ⟨rfl, rfl, ?_⟩
  have h2 : (enhanced_invoke id sgOk "t" 0 (liftInvoke failInvoke) inp0
      initialState).2 = Except.error { ty := "Exception", msg := "boom" } := rfl
  rw [h2]
  simp

/-- C3 amended: when the original invoke raises `e`, the wrapper first runs
the tool-usage normalizer with `success = false` and the captured error
text, and then raises a fresh generic `Exception` carrying `str(e)` (the
original exception class is lost). -/
theorem C3_amended_records_failure_then_raises_generic {ρ : Type}
    (show_ : ρ → String) (sg : SemanticGraphAgent) (now : String)
    (elapsed : Rat) (f : ToolInput → Except Exn ρ) (inp : ToolInput)
    (st : IntegrationState) (e : Exn) (hf : f inp = Except.error e) :
    enhanced_invoke show_ sg now elapsed (liftInvoke f) inp st =
      ((_handle_tool_usage sg now
          { tool_name := some (inp.tool.getD "unknown")
            tool_input := some (inp.tool_input.getD "")
            tool_output := some ("Tool execution failed: " ++ e.msg)
            execution_time := some elapsed
            success := some false
            context := none
            error := some e.msg } st).1,
       Except.error { ty := "Exception", msg := e.msg }) := by
  simp [enhanced_invoke, liftInvoke, hf]

/-- Witness for the amended C3 at a concrete raising tool. -/
theorem C3_witness :
    enhanced_invoke id sgOk "t" 0 (liftInvoke failInvoke) inp0 initialState =
      ((_handle_tool_usage sgOk "t"
          { tool_name := some "calc"
            tool_input := some "2+2"
            tool_output := some ("Tool execution failed: " ++ "boom")
            execution_time := some 0
            success := some false
            context := none
            error := some "boom" } initialState).1,
       Except.error { ty := "Exception", msg := "boom" }) :=
  C3_amended_records_failure_then_raises_generic id sgOk "t" 0 failInvoke
    inp0 initialState { ty := "ValueError", msg := "boom" } rfl

/-- C4 counterexample: for the RLHF-capture hook, a call where the original
method succeeds does not always return the original value — when the
collaborator's `record_context_event` raises, that exception propagates to
the caller (the wrapper has no try/except around it). -/
theorem C4_counterexample :
    okCapture "rr" "rq" "sid" = Except.ok "res" ∧
    (enhanced_capture_output sgCtxFail (liftCapture okCapture) "rr" "rq"
        "sid" initialState).2
      = Except.error { ty := "RuntimeError", msg := "down" } ∧
    (enhanced_capture_output sgCtxFail (liftCapture okCapture) "rr" "rq"
        "sid" initialState).2 ≠ Except.ok "res" := by
  refine ⟨rfl, rfl, ?_⟩
  have h2 : (enhanced_capture_output sgCtxFail (liftCapture okCapture) "rr"
      "rq" "sid" initialState).2
      = Except.error { ty := "RuntimeError", msg := "down" } := rfl
  rw [h2]
  simp

/-- C4 amended: for memory save, research-step execution and RLHF capture,
a raising original propagates unchanged with the normalizer never invoked
(state untouched); a successful original's value is returned unchanged for
memory save and research-step execution unconditionally, and for RLHF
capture provided the context-event logging call does not raise. -/
theorem C4_amended_silent_hooks {σ ρ α β : Type} (sg : SemanticGraphAgent)
    (now : String) (st : IntegrationState) (epi : Option String) :
    (∀ (g : String → Rat → KwArgs → Except Exn σ) content importance kw e,
      g content importance kw = Except.error e →
      enhanced_save_finding sg now epi (liftSave g) content importance kw st
        = (st, Except.error e)) ∧
    (∀ (g : String → Rat → KwArgs → Except Exn σ) content importance kw r,
      g content importance kw = Except.ok r →
      (enhanced_save_finding sg now epi (liftSave g) content importance kw
        st).2 = Except.ok r) ∧
    (∀ (hstep : ResearchState → Except Exn ResearchState) s e,
      hstep s = Except.error e →
      enhanced_execute_step sg now (liftStep hstep) s st
        = (st, Except.error e)) ∧
    (∀ (hstep : ResearchState → Except Exn ResearchState) s rs,
      hstep s = Except.ok rs →
      (enhanced_execute_step sg now (liftStep hstep) s st).2
        = Except.ok rs) ∧
    (∀ (cap : α → β → String → Except Exn ρ) a b sid e,
      cap a b sid = Except.error e →
      enhanced_capture_output sg (liftCapture cap) a b sid st
        = (st, Except.error e)) ∧
    (∀ (cap : α → β → String → Except Exn ρ) a b sid r,
      cap a b sid = Except.ok r →
      sg.record_context_event
        { context_type := "rlhf_capture"
          content := "Research output captured for feedback: " ++ sid
          relevance := 1/2 } = Except.ok () →
      (enhanced_capture_output sg (liftCapture cap) a b sid st).2
        = Except.ok r) := by
  refine ⟨?_, ?_, ?_, ?_, ?_, ?_⟩
  · intro g content importance kw e hg
    simp [enhanced_save_finding, liftSave, hg]
  · intro g content importance kw r hg
    simp [enhanced_save_finding, liftSave, hg]
  · intro hstep s e hh
    simp [enhanced_execute_step, liftStep, hh]
  · intro hstep s rs hh
    simp only [enhanced_execute_step, liftStep, hh]
    split <;> simp_all
  · intro cap a b sid e hc
    simp [enhanced_capture_output, liftCapture, hc]
  · intro cap a b sid r hc hctx
    simp only [enhanced_capture_output, liftCapture,
      IntegrationState.logCall, hc, hctx]

/-- Witness for the amended C4 at concrete hosts. -/
theorem C4_witness :
    enhanced_save_finding sgOk "t" none (liftSave failSave) "c" 1 {}
        initialState
      = (initialState, Except.error { ty := "ValueError", msg := "disk" }) ∧
    (enhanced_save_finding sgOk "t" none (liftSave okSave) "c" 1 {}
        initialState).2 = Except.ok "saved" ∧
    enhanced_execute_step sgOk "t" (liftStep failStep) {} initialState
      = (initialState, Except.error { ty := "KeyError", msg := "state" }) ∧
    (enhanced_execute_step sgOk "t" (liftStep okStep) {} initialState).2
      = Except.ok { findings := some [{ step := some 3, analysis := some "a" }]
                    rest := "" } ∧
    enhanced_capture_output sgOk (liftCapture failCapture) "rr" "rq" "sid"
        initialState
      = (initialState, Except.error { ty := "TypeError", msg := "cap" }) ∧
    (enhanced_capture_output sgOk (liftCapture okCapture) "rr" "rq" "sid"
        initialState).2 = Except.ok "res" := by
  have h := C4_amended_silent_hooks (σ := String) (ρ := String)
    (α := String) (β := String) sgOk "t" initialState none
  exact ⟨h.1 failSave "c" 1 {} _ rfl,
         h.2.1 okSave "c" 1 {} "saved" rfl,
         h.2.2.1 failStep {} _ rfl,
         h.2.2.2.1 okStep {} _ rfl,
         h.2.2.2.2.1 failCapture "rr" "rq" "sid" _ rfl,
         h.2.2.2.2.2 okCapture "rr" "rq" "sid" "res" rfl rfl⟩

/-- C8 counterexample: the retrieval call succeeds but the secondary
log-ingest raises; the handler then discards the retrieval result, returns
the error shape and does not increment the counter — so success of the
enhanced-retrieval call alone does not guarantee pass-through. -/
theorem C8_counterexample :
    sgRetrMix.enhanced_retrieval
      { query := "", query_embedding := none, strategy := "hybrid"
        top_k := 10, node_types := none } = Except.ok r0 ∧
    (_handle_retrieval sgRetrMix "t" {} initialState).2
      = DictReturn.errorShape "net" ∧
    (_handle_retrieval sgRetrMix "t" {} initialState).2
      ≠ DictReturn.passthrough r0 ∧
    (_handle_retrieval sgRetrMix "t" {} initialState).1.stats.retrieval_calls
      = 0 := by
  refine ⟨rfl, rfl, ?_, rfl⟩
  have h2 : (_handle_retrieval sgRetrMix "t" {} initialState).2
      = DictReturn.errorShape "net" := rfl
  rw [h2]
  simp

/-- C8 amended: when the enhanced-retrieval call *and* the secondary
log-ingest of `\x7bquery, strategy, results_count\x7d` at priority 1 both
succeed, `_handle_retrieval` returns the retrieval result unchanged and
increments `retrieval_calls` by one. -/
theorem C8_amended_retrieval_passthrough (sg : SemanticGraphAgent)
    (now : String) (d : RetrievalData) (st : IntegrationState)
    (r : RetrievalResult)
    (hR : sg.enhanced_retrieval
      { query := d.query.getD "", query_embedding := d.query_embedding
        strategy := d.strategy.getD "hybrid", top_k := d.top_k.getD 10
        node_types := d.node_types } = Except.ok r)
    (hI : sg.ingest_event IngestionSource.RETRIEVAL_LOGS
      (IngestData.retrievalLog
        { query := d.query.getD "", strategy := d.strategy.getD "hybrid"
          results_count := (r.results.getD []).length, timestamp := now }) 1
      = Except.ok ()) :
    _handle_retrieval sg now d st =
      ({ st with
          stats :=
            { st.stats with
                retrieval_calls := st.stats.retrieval_calls + 1 }
          calls := st.calls ++
            [ClientCall.enhancedRetrieval
              { query := d.query.getD "", query_embedding := d.query_embedding
                strategy := d.strategy.getD "hybrid"
                top_k := d.top_k.getD 10, node_types := d.node_types },
             ClientCall.ingestEvent IngestionSource.RETRIEVAL_LOGS
              (IngestData.retrievalLog
                { query := d.query.getD ""
                  strategy := d.strategy.getD "hybrid"
                  results_count := (r.results.getD []).length
                  timestamp := now }) 1] },
       DictReturn.passthrough r) := by
  simp [_handle_retrieval, IntegrationState.logCall, hR, hI]

/-- Witness for the amended C8: the always-succeeding collaborator passes
the retrieval result through and counts the call. -/
theorem C8_witness :
    (_handle_retrieval sgOk "t" {} initialState).2
      = DictReturn.passthrough r0 ∧
    (_handle_retrieval sgOk "t" {} initialState).1.stats.retrieval_calls
      = 1 := by
  have h := C8_amended_retrieval_passthrough sgOk "t" {} initialState r0
    rfl rfl
  rw [h]
  exact ⟨rfl, rfl⟩

/-- C10: `get_integration_health` reports `integration_errors = 0` in every
state whatsoever — the field is the literal constant 0 in the source, so
the health snapshot never reflects past errors. -/
theorem C10_integration_errors_always_zero (sg : SemanticGraphAgent)
    (now : String) (st : IntegrationState) :
    (get_integration_health sg now st).integration_errors = 0 := rfl

end SemGraphIntegration
